import Mathlib

/-!
Verification of the runtime simulation core of the "Mac the Developer" /
"Sonic the Developer" endless-runner game.

Numbers (JS floats) are modelled as rationals.  Each definition is a direct
translation of the correspondingly named function of the source:
`Utils.checkCollision` (src/js/utils.js), the `Player` methods `update`,
`jump`, `executeJump`, `land`, `crash`, `getSpeed` (src/js/game.js), the
`Level` methods `updateDifficulty` and `updateDeadline` (src/js/level.js,
with the variant of src/unnamed/part_003), `Obstacle.applyEffect`
(src/js/obstacles.js) and the accumulator loop of `Game.gameLoop`
(src/js/game.js).  `Player.update` is split into one Lean definition per
source block, sequenced in source order by `updateAux`; the Bool returned
by `updateAux` records whether the jump-buffer block invoked `executeJump`
during that tick.
-/

namespace MacTheDev

/-- A rectangle as consumed by Utils.checkCollision: fields x, y, width, height. -/
structure Rect where
  x : ℚ
  y : ℚ
  width : ℚ
  height : ℚ
deriving DecidableEq

/-- Utils.checkCollision (src/js/utils.js lines 43-50): strict AABB overlap test. -/
def checkCollision (rect1 rect2 : Rect) : Bool :=
  decide (rect1.x < rect2.x + rect2.width) &&
  decide (rect1.x + rect1.width > rect2.x) &&
  decide (rect1.y < rect2.y + rect2.height) &&
  decide (rect1.y + rect1.height > rect2.y)

/-- The `this.state` record of Player (src/js/game.js lines 678-685). -/
structure PlayerState where
  isRunning : Bool
  isJumping : Bool
  isDoubleJumping : Bool
  isSliding : Bool
  isCrashed : Bool
  hasSpeedBoost : Bool
deriving DecidableEq

/-- The Player object (src/js/game.js lines 662-716), inheriting Sprite's
position/velocity/flags (src/js/level.js lines 553-589). -/
structure Player where
  x : ℚ
  y : ℚ
  width : ℚ
  height : ℚ
  velocityY : ℚ
  groundY : ℚ
  jumpForce : ℚ
  gravity : ℚ
  baseSpeed : ℚ
  speedBoost : ℚ
  speedBoostDuration : ℚ
  invincible : Bool
  invincibilityDuration : ℚ
  invincibilityFlashTimer : ℚ
  coyoteTime : ℚ
  coyoteTimeCounter : ℚ
  jumpBufferTime : ℚ
  jumpBufferCounter : ℚ
  canDoubleJump : Bool
  score : ℚ
  coffeeCount : ℚ
  codeSnippets : ℚ
  gitCommits : ℚ
  isActive : Bool
  isVisible : Bool
  state : PlayerState
  collisionBox : Rect
deriving DecidableEq

/-- The Player constructor (src/js/game.js lines 668-716) for a given ground line. -/
def mkPlayer (groundY : ℚ) : Player where
  x := 100
  y := groundY - 50
  width := 50
  height := 50
  velocityY := 0
  groundY := groundY
  jumpForce := -600
  gravity := 1200
  baseSpeed := 300
  speedBoost := 0
  speedBoostDuration := 0
  invincible := false
  invincibilityDuration := 0
  invincibilityFlashTimer := 0
  coyoteTime := 100
  coyoteTimeCounter := 0
  jumpBufferTime := 150
  jumpBufferCounter := 0
  canDoubleJump := false
  score := 0
  coffeeCount := 0
  codeSnippets := 0
  gitCommits := 0
  isActive := true
  isVisible := true
  state :=
    { isRunning := true, isJumping := false, isDoubleJumping := false,
      isSliding := false, isCrashed := false, hasSpeedBoost := false }
  collisionBox := { x := 110, y := groundY - 45, width := 30, height := 40 }

/-- Player.getSpeed (src/js/game.js lines 1012-1014). -/
def getSpeed (p : Player) : ℚ :=
  p.baseSpeed + p.speedBoost

/-- Player.updateCollisionBox (src/js/game.js lines 816-829). -/
def updateCollisionBox (p : Player) : Player :=
  if p.state.isSliding = true then
    { p with collisionBox :=
        { x := p.x + 10, y := p.y + 20, width := p.width - 20, height := p.height - 25 } }
  else
    { p with collisionBox :=
        { x := p.x + 10, y := p.y + 5, width := p.width - 20, height := p.height - 10 } }

/-- Player.executeJump (src/js/game.js lines 885-894). -/
def executeJump (p : Player) : Player :=
  { p with velocityY := p.jumpForce,
           state := { p.state with isJumping := true, isRunning := false, isSliding := false },
           coyoteTimeCounter := p.coyoteTime + 1 }

/-- Player.land (src/js/game.js lines 925-931). -/
def land (p : Player) : Player :=
  { p with
      state :=
        { p.state with isJumping := false, isDoubleJumping := false, isRunning := true },
      velocityY := 0,
      canDoubleJump := false }

/-- Player.jump (src/js/game.js lines 849-880). -/
def jump (p : Player) : Player :=
  if (p.state.isJumping = true ∨ p.y < p.groundY - p.height) ∧
      p.canDoubleJump = false ∧ p.state.isDoubleJumping = false then
    { p with jumpBufferCounter := p.jumpBufferTime }
  else if p.state.isJumping = false ∨ p.coyoteTimeCounter ≤ p.coyoteTime ∨
      p.canDoubleJump = true then
    if p.state.isJumping = false ∨ p.coyoteTimeCounter ≤ p.coyoteTime then
      { executeJump p with canDoubleJump := true }
    else if p.canDoubleJump = true then
      { p with velocityY := p.jumpForce * 0.8,
               state := { p.state with isDoubleJumping := true },
               canDoubleJump := false }
    else p
  else p

/-- Player.crash (src/js/game.js lines 936-958). -/
def crash (p : Player) : Player :=
  if p.invincible = true then p
  else if 0 < p.gitCommits then
    { p with gitCommits := p.gitCommits - 1,
             invincible := true,
             invincibilityDuration := 2000 }
  else
    { p with
        state :=
          { p.state with
              isCrashed := true, isRunning := false, isJumping := false, isSliding := false },
        velocityY := p.jumpForce / 2 }

/-- Crashed branch of Player.update (src/js/game.js lines 724-737). -/
def crashedUpdate (p : Player) (deltaTime : ℚ) : Player :=
  let p1 := { p with velocityY := p.velocityY + p.gravity * (deltaTime / 1000) }
  let p2 := { p1 with y := p1.y + p1.velocityY * (deltaTime / 1000) }
  let p3 := if p2.groundY + 200 < p2.y then { p2 with isActive := false } else p2
  updateCollisionBox p3

/-- Speed-boost timer block of Player.update (src/js/game.js lines 739-747). -/
def speedBoostStep (p : Player) (deltaTime : ℚ) : Player :=
  if p.state.hasSpeedBoost = true then
    let p1 := { p with speedBoostDuration := p.speedBoostDuration - deltaTime }
    if p1.speedBoostDuration ≤ 0 then
      { p1 with state := { p1.state with hasSpeedBoost := false }, speedBoost := 0 }
    else p1
  else p

/-- Invincibility timer block of Player.update (src/js/game.js lines 749-764). -/
def invincibilityStep (p : Player) (deltaTime : ℚ) : Player :=
  if p.invincible = true then
    let p1 := { p with invincibilityDuration := p.invincibilityDuration - deltaTime,
                       invincibilityFlashTimer := p.invincibilityFlashTimer + deltaTime }
    let p2 :=
      if 100 ≤ p1.invincibilityFlashTimer then
        { p1 with isVisible := !p1.isVisible, invincibilityFlashTimer := 0 }
      else p1
    if p2.invincibilityDuration ≤ 0 then
      { p2 with invincible := false, isVisible := true }
    else p2
  else p

/-- Gravity and position-integration block of Player.update (src/js/game.js lines 766-772). -/
def physicsStep (p : Player) (deltaTime : ℚ) : Player :=
  let p1 :=
    if p.state.isJumping = true ∨ p.y < p.groundY - p.height then
      { p with velocityY := p.velocityY + p.gravity * (deltaTime / 1000) }
    else p
  { p1 with y := p1.y + p1.velocityY * (deltaTime / 1000) }

/-- Coyote-time block of Player.update (src/js/game.js lines 774-782). -/
def coyoteStep (p : Player) (deltaTime : ℚ) : Player :=
  if p.state.isJumping = false ∧ p.y < p.groundY - p.height then
    let p1 := { p with coyoteTimeCounter := p.coyoteTimeCounter + deltaTime }
    if p1.coyoteTime < p1.coyoteTimeCounter then
      { p1 with state := { p1.state with isJumping := true } }
    else p1
  else { p with coyoteTimeCounter := 0 }

/-- Jump-buffer block of Player.update (src/js/game.js lines 784-793).
The Bool records whether the buffered executeJump was invoked. -/
def bufferStep (p : Player) (deltaTime : ℚ) : Player × Bool :=
  if 0 < p.jumpBufferCounter then
    let p1 := { p with jumpBufferCounter := p.jumpBufferCounter - deltaTime }
    if p1.state.isJumping = false ∧ p1.groundY - p1.height ≤ p1.y then
      ({ executeJump p1 with jumpBufferCounter := 0 }, true)
    else (p1, false)
  else (p, false)

/-- Landing check of Player.update (src/js/game.js lines 795-798). -/
def landStep (p : Player) : Player :=
  if p.state.isJumping = true ∧ p.groundY - p.height ≤ p.y then land p else p

/-- Ground clamp of Player.update (src/js/game.js lines 800-804). -/
def clampStep (p : Player) : Player :=
  if p.groundY - p.height < p.y then
    { p with y := p.groundY - p.height, velocityY := 0 }
  else p

/-- Player.update (src/js/game.js lines 723-811), with the blocks sequenced in
source order; the Bool records whether the jump-buffer block invoked executeJump. -/
def updateAux (p : Player) (deltaTime : ℚ) : Player × Bool :=
  if p.state.isCrashed = true then
    (crashedUpdate p deltaTime, false)
  else
    let p1 := speedBoostStep p deltaTime
    let p2 := invincibilityStep p1 deltaTime
    let p3 := physicsStep p2 deltaTime
    let p4 := coyoteStep p3 deltaTime
    let pb := bufferStep p4 deltaTime
    let p6 := landStep pb.1
    let p7 := clampStep p6
    (updateCollisionBox p7, pb.2)

/-- Player.update, state part. -/
def update (p : Player) (deltaTime : ℚ) : Player :=
  (updateAux p deltaTime).1

/-- The obstacle type tag (src/js/obstacles.js lines 19-44). -/
inductive ObstacleType where
  | bug
  | mergeConflict
  | meeting
  | technicalDebt
deriving DecidableEq

/-- Obstacle.applyEffect (src/js/obstacles.js lines 154-186).  The Bool argument
and result track the obstacle's isActive flag. -/
def applyEffect (t : ObstacleType) (p : Player) (isActive : Bool) : Player × Bool :=
  match t with
  | .bug => (crash p, isActive)
  | .technicalDebt => (crash p, isActive)
  | .mergeConflict =>
    if p.invincible = false then
      ({ p with speedBoost := -150,
                state := { p.state with hasSpeedBoost := true },
                speedBoostDuration := 3000 }, false)
    else (p, isActive)
  | .meeting =>
    if p.invincible = false then
      ({ p with speedBoost := -100,
                state := { p.state with hasSpeedBoost := true },
                speedBoostDuration := 2000 }, false)
    else (p, isActive)

/-- The Level fields used by the difficulty and deadline logic
(src/js/level.js lines 13-41). -/
structure Level where
  width : ℚ
  height : ℚ
  groundY : ℚ
  speed : ℚ
  distance : ℚ
  difficulty : ℚ
  deadlinePosition : ℚ
  deadlineSpeed : ℚ
deriving DecidableEq

/-- The Level constructor values (src/js/level.js lines 13-41). -/
def mkLevel (width height : ℚ) : Level where
  width := width
  height := height
  groundY := height - 50
  speed := 300
  distance := 0
  difficulty := 1
  deadlinePosition := 0
  deadlineSpeed := 20

/-- Level.updateDifficulty (src/js/level.js lines 136-149):
difficulty = 1 + min(distance / 10000 * 1.5, 1.5). -/
def updateDifficulty (lv : Level) : Level :=
  let maxDifficulty : ℚ := 2.5
  let difficultyRampUpDistance : ℚ := 10000
  { lv with difficulty :=
      1 + min (lv.distance / difficultyRampUpDistance * (maxDifficulty - 1))
              (maxDifficulty - 1) }

/-- Level.updateDeadline (src/js/level.js lines 435-473). -/
def updateDeadline (lv : Level) (deltaTime : ℚ) (player : Player) : Level × Bool :=
  let playerSpeed := getSpeed player
  let speedDifference := lv.deadlineSpeed - (playerSpeed - lv.speed)
  let gameTimeSeconds := lv.distance / lv.speed
  let speedDifference1 :=
    if gameTimeSeconds < 10 then
      max 0 (speedDifference * 0.1)
    else if gameTimeSeconds < 15 then
      let transitionFactor := (gameTimeSeconds - 10) / 5
      max 0 (speedDifference * (0.1 + transitionFactor * 0.5))
    else if lv.distance < 3000 then
      max 0 (speedDifference * 0.6)
    else speedDifference
  let newPos := max 0 (lv.deadlinePosition + speedDifference1 * (deltaTime / 1000))
  ({ lv with deadlinePosition := newPos }, decide (100 ≤ newPos))

/-- Level.updateDeadline of the variant in src/unnamed/part_003 lines 474-489. -/
def updateDeadlineAlt (lv : Level) (deltaTime : ℚ) (player : Player) : Level × Bool :=
  let baseSpeed : ℚ := 50
  let playerSpeed := getSpeed player
  let newSpeed := baseSpeed / playerSpeed * lv.difficulty * 0.7
  let newPos := lv.deadlinePosition + newSpeed * (deltaTime / 1000)
  ({ lv with deadlineSpeed := newSpeed, deadlinePosition := newPos },
   decide (player.x - 50 ≤ newPos))

/-- The fixed simulation time step of Game (src/js/game.js line 53): 1000 / 60 ms. -/
def timeStep : ℚ := 1000 / 60

/-- The accumulator-draining while loop of Game.gameLoop (src/js/game.js
lines 433-438), unpaused: returns the number of update calls executed and the
final accumulatedTime. -/
def drainLoop (accumulatedTime : ℚ) : ℕ × ℚ :=
  if timeStep ≤ accumulatedTime then
    let r := drainLoop (accumulatedTime - timeStep)
    (r.1 + 1, r.2)
  else (0, accumulatedTime)
termination_by (⌈accumulatedTime / timeStep⌉).toNat
decreasing_by
  have hts : (0:ℚ) < timeStep := by norm_num [timeStep]
  have h1 : (1:ℚ) ≤ accumulatedTime / timeStep := (one_le_div hts).mpr (by assumption)
  have h2 : (accumulatedTime - timeStep) / timeStep = accumulatedTime / timeStep - 1 := by
    field_simp
  have h3 : (1:ℤ) ≤ ⌈accumulatedTime / timeStep⌉ := by
    exact_mod_cast Int.le_ceil_iff.mpr (by push_cast; linarith)
  rw [h2, Int.ceil_sub_one]
  omega

/-- The per-frame time accounting of Game.gameLoop (src/js/game.js lines
424-438): deltaTime = timestamp - lastFrameTime is added to the accumulator,
which the while loop then drains in fixed steps. -/
def gameLoopSteps (lastFrameTime accumulatedTime timestamp : ℚ) : ℕ × ℚ :=
  drainLoop (accumulatedTime + (timestamp - lastFrameTime))


/-- checkCollision holds exactly when the two open boxes overlap on both axes. -/
theorem checkCollision_iff (r1 r2 : Rect) :
    checkCollision r1 r2 = true ↔
      (r1.x < r2.x + r2.width ∧ r2.x < r1.x + r1.width ∧
       r1.y < r2.y + r2.height ∧ r2.y < r1.y + r1.height) := by
  simp [checkCollision, and_assoc]

/-- C8: Utils.checkCollision is symmetric in its two rectangles, and two
rectangles with zero overlap on at least one axis (boundary touching included)
never collide under the strict inequality test. -/
theorem checkCollision_symm_separated (a b : Rect) :
    checkCollision a b = checkCollision b a ∧
    (a.x + a.width ≤ b.x ∨ b.x + b.width ≤ a.x ∨
     a.y + a.height ≤ b.y ∨ b.y + b.height ≤ a.y →
      checkCollision a b = false) := by
  have key : ∀ u v : Rect, checkCollision u v = true → checkCollision v u = true := by
    intro u v h
    rw [checkCollision_iff] at h ⊢
    exact ⟨h.2.1, h.1, h.2.2.2, h.2.2.1⟩
  constructor
  · cases hab : checkCollision a b with
    | true => exact (key a b hab).symm
    | false =>
      cases hba : checkCollision b a with
      | true =>
        have hcontra := key b a hba
        rw [hab] at hcontra
        exact Bool.noConfusion hcontra
      | false => rfl
  · intro h
    rw [Bool.eq_false_iff]
    intro habs
    rw [checkCollision_iff] at habs
    obtain ⟨h1, h2, h3, h4⟩ := habs
    rcases h with h | h | h | h <;> linarith

/-- Witness for C8 at concrete rectangles touching at a vertical edge. -/
theorem checkCollision_symm_separated_witness :
    checkCollision (Rect.mk 0 0 10 10) (Rect.mk 10 0 10 10) =
        checkCollision (Rect.mk 10 0 10 10) (Rect.mk 0 0 10 10) ∧
    checkCollision (Rect.mk 0 0 10 10) (Rect.mk 10 0 10 10) = false := by
  obtain ⟨h1, h2⟩ := checkCollision_symm_separated (Rect.mk 0 0 10 10) (Rect.mk 10 0 10 10)
  exact ⟨h1, h2 (Or.inl (by norm_num))⟩

/-- C5: Level.updateDifficulty computes 1 + min(distance/10000, 1) * 1.5: it is
1 at distance 0, exactly 2.5 from distance 10000 on, monotone in distance, and
never exceeds 2.5. -/
theorem updateDifficulty_ramp (lv lv2 : Level)
    (h : 0 ≤ lv.distance) (h2 : 0 ≤ lv2.distance) (hle : lv.distance ≤ lv2.distance) :
    (updateDifficulty lv).difficulty = 1 + min (lv.distance / 10000) 1 * (3/2) ∧
    (lv.distance = 0 → (updateDifficulty lv).difficulty = 1) ∧
    (10000 ≤ lv.distance → (updateDifficulty lv).difficulty = 5/2) ∧
    (updateDifficulty lv).difficulty ≤ (updateDifficulty lv2).difficulty ∧
    (updateDifficulty lv).difficulty ≤ 5/2 := by
  have hmin : ∀ d : ℚ, min (d / 10000 * (3/2)) (3/2) = min (d / 10000) 1 * (3/2) := by
    intro d
    rcases le_total (d / 10000) 1 with hd | hd
    · rw [min_eq_left hd, min_eq_left (by linarith)]
    · rw [min_eq_right hd, min_eq_right (by linarith), one_mul]
  have hval : ∀ l : Level, (updateDifficulty l).difficulty =
      1 + min (l.distance / 10000 * (3/2)) (3/2) := by
    intro l
    norm_num [updateDifficulty]
  refine ⟨by rw [hval, hmin], ?_, ?_, ?_, ?_⟩
  · intro h0
    rw [hval, h0]
    norm_num
  · intro h10
    rw [hval, min_eq_right (by linarith)]
    norm_num
  · rw [hval, hval]
    gcongr
  · rw [hval]
    have := min_le_right (lv.distance / 10000 * (3/2)) ((3:ℚ)/2)
    linarith

/-- Witness for C5 at distances 0 and 20000. -/
theorem updateDifficulty_ramp_witness :
    ((updateDifficulty (mkLevel 800 600)).difficulty =
        1 + min ((mkLevel 800 600).distance / 10000) 1 * (3/2)) ∧
    (updateDifficulty { mkLevel 800 600 with distance := 20000 }).difficulty = 5/2 := by
  have h1 := updateDifficulty_ramp (mkLevel 800 600)
    { mkLevel 800 600 with distance := 20000 } (by norm_num [mkLevel]) (by norm_num [mkLevel])
    (by norm_num [mkLevel])
  have h2 := updateDifficulty_ramp { mkLevel 800 600 with distance := 20000 }
    { mkLevel 800 600 with distance := 20000 } (by norm_num [mkLevel]) (by norm_num [mkLevel])
    (by norm_num [mkLevel])
  exact ⟨h1.1, h2.2.2.1 (by norm_num [mkLevel])⟩

/-- C1: for a non-crashed, non-invincible player, Player.crash consumes a spare
life when gitCommits > 0 (decrement by one, invincibility on for the fixed
positive 2000 ms window, no crash), and sets isCrashed when gitCommits = 0. -/
theorem crash_spare_life_rule (p : Player)
    (hc : p.state.isCrashed = false) (hi : p.invincible = false) :
    (0 < p.gitCommits →
      (crash p).gitCommits = p.gitCommits - 1 ∧
      (crash p).invincible = true ∧
      (crash p).invincibilityDuration = 2000 ∧
      0 < (crash p).invincibilityDuration ∧
      (crash p).state.isCrashed = false) ∧
    (p.gitCommits = 0 → (crash p).state.isCrashed = true) := by
  constructor
  · intro h
    simp [crash, hi, h, hc]
  · intro h
    simp [crash, hi, h]

/-- Witness for C1: a fresh player with 3 spare lives, and one with 0. -/
theorem crash_spare_life_rule_witness :
    (crash { mkPlayer 400 with gitCommits := 3 }).gitCommits = 2 ∧
    (crash { mkPlayer 400 with gitCommits := 3 }).state.isCrashed = false ∧
    (crash (mkPlayer 400)).state.isCrashed = true := by
  have h3 := crash_spare_life_rule { mkPlayer 400 with gitCommits := 3 } rfl rfl
  have h0 := crash_spare_life_rule (mkPlayer 400) rfl rfl
  have hpos : (0:ℚ) < ({ mkPlayer 400 with gitCommits := 3 } : Player).gitCommits := by
    norm_num [mkPlayer]
  refine ⟨?_, (h3.1 hpos).2.2.2.2, h0.2 (by norm_num [mkPlayer])⟩
  rw [(h3.1 hpos).1]
  norm_num [mkPlayer]

/-- C10: while the player is invincible, Obstacle.applyEffect for a meeting or
mergeConflict obstacle changes neither the player's speedBoost fields nor the
obstacle's isActive flag. -/
theorem applyEffect_invincible_noop (p : Player) (act : Bool) (t : ObstacleType)
    (hinv : p.invincible = true)
    (ht : t = ObstacleType.meeting ∨ t = ObstacleType.mergeConflict) :
    (applyEffect t p act).1.speedBoost = p.speedBoost ∧
    (applyEffect t p act).1.speedBoostDuration = p.speedBoostDuration ∧
    (applyEffect t p act).1.state.hasSpeedBoost = p.state.hasSpeedBoost ∧
    (applyEffect t p act).2 = act := by
  rcases ht with h | h <;> subst h <;> simp [applyEffect, hinv]

/-- Witness for C10: an invincible player meeting a meeting obstacle. -/
theorem applyEffect_invincible_noop_witness :
    (applyEffect ObstacleType.meeting { mkPlayer 400 with invincible := true } true).1.speedBoost
        = ({ mkPlayer 400 with invincible := true } : Player).speedBoost ∧
    (applyEffect ObstacleType.meeting { mkPlayer 400 with invincible := true } true).2 = true := by
  have h := applyEffect_invincible_noop { mkPlayer 400 with invincible := true } true
    ObstacleType.meeting rfl (Or.inl rfl)
  exact ⟨h.1, h.2.2.2⟩

/-- Player.collectCoffee (src/js/game.js lines 963-972). -/
def collectCoffee (p : Player) : Player :=
  { p with coffeeCount := p.coffeeCount + 1,
           score := p.score + 50,
           state := { p.state with hasSpeedBoost := true },
           speedBoost := 300,
           speedBoostDuration := 8000 }

/-- The state just before the ground clamp within Player.update: the speed
boost, invincibility, physics, coyote, jump-buffer and landing blocks applied
in source order. -/
def preClampState (p : Player) (deltaTime : ℚ) : Player :=
  landStep (bufferStep (coyoteStep (physicsStep (invincibilityStep
    (speedBoostStep p deltaTime) deltaTime) deltaTime) deltaTime) deltaTime).1

/-- For a non-crashed player, Player.update is the clamp applied after the
pre-clamp pipeline, followed by the collision-box refresh. -/
theorem update_eq_clamp (p : Player) (deltaTime : ℚ) (hc : p.state.isCrashed = false) :
    update p deltaTime = updateCollisionBox (clampStep (preClampState p deltaTime)) := by
  simp [update, updateAux, preClampState, hc]

/-- The speed-boost block leaves the invincibility fields, geometry and motion alone. -/
theorem speedBoostStep_fields (p : Player) (deltaTime : ℚ) :
    (speedBoostStep p deltaTime).invincible = p.invincible ∧
    (speedBoostStep p deltaTime).invincibilityDuration = p.invincibilityDuration ∧
    (speedBoostStep p deltaTime).groundY = p.groundY ∧
    (speedBoostStep p deltaTime).height = p.height ∧
    (speedBoostStep p deltaTime).y = p.y ∧
    (speedBoostStep p deltaTime).velocityY = p.velocityY := by
  simp only [speedBoostStep]
  split_ifs <;> simp

/-- After the speed-boost block, a still-set boost flag means strictly
positive remaining duration. -/
theorem speedBoostStep_pos (p : Player) (deltaTime : ℚ) :
    (speedBoostStep p deltaTime).state.hasSpeedBoost = true →
      0 < (speedBoostStep p deltaTime).speedBoostDuration := by
  simp only [speedBoostStep]
  split_ifs with h1 h2 <;> intro hflag <;> simp_all

/-- The invincibility block leaves the boost fields, geometry and motion alone. -/
theorem invincibilityStep_fields (p : Player) (deltaTime : ℚ) :
    (invincibilityStep p deltaTime).state.hasSpeedBoost = p.state.hasSpeedBoost ∧
    (invincibilityStep p deltaTime).speedBoostDuration = p.speedBoostDuration ∧
    (invincibilityStep p deltaTime).groundY = p.groundY ∧
    (invincibilityStep p deltaTime).height = p.height ∧
    (invincibilityStep p deltaTime).y = p.y ∧
    (invincibilityStep p deltaTime).velocityY = p.velocityY := by
  simp only [invincibilityStep]
  split_ifs <;> simp

/-- After the invincibility block, a still-set invincible flag means strictly
positive remaining duration. -/
theorem invincibilityStep_pos (p : Player) (deltaTime : ℚ) :
    (invincibilityStep p deltaTime).invincible = true →
      0 < (invincibilityStep p deltaTime).invincibilityDuration := by
  simp only [invincibilityStep]
  split_ifs with h1 h2 h3 <;> intro hflag <;> simp_all

/-- The physics block leaves the timer fields and the geometry alone. -/
theorem physicsStep_fields (p : Player) (deltaTime : ℚ) :
    (physicsStep p deltaTime).state.hasSpeedBoost = p.state.hasSpeedBoost ∧
    (physicsStep p deltaTime).speedBoostDuration = p.speedBoostDuration ∧
    (physicsStep p deltaTime).invincible = p.invincible ∧
    (physicsStep p deltaTime).invincibilityDuration = p.invincibilityDuration ∧
    (physicsStep p deltaTime).groundY = p.groundY ∧
    (physicsStep p deltaTime).height = p.height := by
  simp only [physicsStep]
  split_ifs <;> simp

/-- The coyote block leaves the timer fields, geometry and motion alone. -/
theorem coyoteStep_fields (p : Player) (deltaTime : ℚ) :
    (coyoteStep p deltaTime).state.hasSpeedBoost = p.state.hasSpeedBoost ∧
    (coyoteStep p deltaTime).speedBoostDuration = p.speedBoostDuration ∧
    (coyoteStep p deltaTime).invincible = p.invincible ∧
    (coyoteStep p deltaTime).invincibilityDuration = p.invincibilityDuration ∧
    (coyoteStep p deltaTime).groundY = p.groundY ∧
    (coyoteStep p deltaTime).height = p.height ∧
    (coyoteStep p deltaTime).y = p.y ∧
    (coyoteStep p deltaTime).velocityY = p.velocityY := by
  simp only [coyoteStep]
  split_ifs <;> simp

/-- The jump-buffer block leaves the timer fields, geometry and position alone. -/
theorem bufferStep_fields (p : Player) (deltaTime : ℚ) :
    (bufferStep p deltaTime).1.state.hasSpeedBoost = p.state.hasSpeedBoost ∧
    (bufferStep p deltaTime).1.speedBoostDuration = p.speedBoostDuration ∧
    (bufferStep p deltaTime).1.invincible = p.invincible ∧
    (bufferStep p deltaTime).1.invincibilityDuration = p.invincibilityDuration ∧
    (bufferStep p deltaTime).1.groundY = p.groundY ∧
    (bufferStep p deltaTime).1.height = p.height ∧
    (bufferStep p deltaTime).1.y = p.y := by
  simp only [bufferStep, executeJump]
  split_ifs <;> simp

/-- The landing check leaves the timer fields, geometry and position alone. -/
theorem landStep_fields (p : Player) :
    (landStep p).state.hasSpeedBoost = p.state.hasSpeedBoost ∧
    (landStep p).speedBoostDuration = p.speedBoostDuration ∧
    (landStep p).invincible = p.invincible ∧
    (landStep p).invincibilityDuration = p.invincibilityDuration ∧
    (landStep p).groundY = p.groundY ∧
    (landStep p).height = p.height ∧
    (landStep p).y = p.y := by
  simp only [landStep, land]
  split_ifs <;> simp

/-- The ground clamp leaves the timer fields and the geometry alone. -/
theorem clampStep_fields (p : Player) :
    (clampStep p).state.hasSpeedBoost = p.state.hasSpeedBoost ∧
    (clampStep p).speedBoostDuration = p.speedBoostDuration ∧
    (clampStep p).invincible = p.invincible ∧
    (clampStep p).invincibilityDuration = p.invincibilityDuration ∧
    (clampStep p).groundY = p.groundY ∧
    (clampStep p).height = p.height := by
  simp only [clampStep]
  split_ifs <;> simp

/-- The collision-box refresh changes only the collision box. -/
theorem updateCollisionBox_fields (p : Player) :
    (updateCollisionBox p).state.hasSpeedBoost = p.state.hasSpeedBoost ∧
    (updateCollisionBox p).speedBoostDuration = p.speedBoostDuration ∧
    (updateCollisionBox p).invincible = p.invincible ∧
    (updateCollisionBox p).invincibilityDuration = p.invincibilityDuration ∧
    (updateCollisionBox p).groundY = p.groundY ∧
    (updateCollisionBox p).height = p.height ∧
    (updateCollisionBox p).y = p.y ∧
    (updateCollisionBox p).velocityY = p.velocityY := by
  simp only [updateCollisionBox]
  split_ifs <;> simp

/-- The ground clamp establishes y ≤ groundY - height, zeroing the vertical
velocity exactly when it fires. -/
theorem clampStep_spec (p : Player) :
    (clampStep p).y ≤ p.groundY - p.height ∧
    (p.groundY - p.height < p.y → (clampStep p).velocityY = 0) := by
  simp only [clampStep]
  split_ifs with h
  · exact ⟨by simp, fun _ => by simp⟩
  · exact ⟨le_of_not_lt h, fun hy => absurd hy h⟩

/-- The pre-clamp pipeline does not move the ground line or the player height. -/
theorem preClampState_ground (p : Player) (deltaTime : ℚ) :
    (preClampState p deltaTime).groundY = p.groundY ∧
    (preClampState p deltaTime).height = p.height := by
  obtain ⟨-, -, g1, h1, -, -⟩ := speedBoostStep_fields p deltaTime
  obtain ⟨-, -, g2, h2, -, -⟩ := invincibilityStep_fields (speedBoostStep p deltaTime) deltaTime
  obtain ⟨-, -, -, -, g3, h3⟩ := physicsStep_fields
    (invincibilityStep (speedBoostStep p deltaTime) deltaTime) deltaTime
  obtain ⟨-, -, -, -, g4, h4, -, -⟩ := coyoteStep_fields
    (physicsStep (invincibilityStep (speedBoostStep p deltaTime) deltaTime) deltaTime) deltaTime
  obtain ⟨-, -, -, -, g5, h5, -⟩ := bufferStep_fields
    (coyoteStep (physicsStep (invincibilityStep (speedBoostStep p deltaTime) deltaTime)
      deltaTime) deltaTime) deltaTime
  obtain ⟨-, -, -, -, g6, h6, -⟩ := landStep_fields
    (bufferStep (coyoteStep (physicsStep (invincibilityStep (speedBoostStep p deltaTime)
      deltaTime) deltaTime) deltaTime) deltaTime).1
  constructor
  · simp only [preClampState]
    rw [g6, g5, g4, g3, g2, g1]
  · simp only [preClampState]
    rw [h6, h5, h4, h3, h2, h1]

/-- C6 (amended): after Player.update of a non-crashed player, a still-set
hasSpeedBoost or invincible flag always comes with a strictly positive
remaining duration; the flags are cleared as soon as their duration counter
reaches zero.  (The duration fields themselves are not clamped: a deltaTime
larger than the remaining duration leaves them negative, see the
counterexample.) -/
theorem update_flags_imply_positive_duration (p : Player) (deltaTime : ℚ)
    (hc : p.state.isCrashed = false) :
    ((update p deltaTime).state.hasSpeedBoost = true →
      0 < (update p deltaTime).speedBoostDuration) ∧
    ((update p deltaTime).invincible = true →
      0 < (update p deltaTime).invincibilityDuration) := by
  rw [update_eq_clamp p deltaTime hc]
  simp only [preClampState]
  obtain ⟨b3, d3, i3, j3, -, -⟩ := physicsStep_fields
    (invincibilityStep (speedBoostStep p deltaTime) deltaTime) deltaTime
  obtain ⟨b4, d4, i4, j4, -, -, -, -⟩ := coyoteStep_fields
    (physicsStep (invincibilityStep (speedBoostStep p deltaTime) deltaTime) deltaTime) deltaTime
  obtain ⟨b5, d5, i5, j5, -, -, -⟩ := bufferStep_fields
    (coyoteStep (physicsStep (invincibilityStep (speedBoostStep p deltaTime) deltaTime)
      deltaTime) deltaTime) deltaTime
  obtain ⟨b6, d6, i6, j6, -, -, -⟩ := landStep_fields
    (bufferStep (coyoteStep (physicsStep (invincibilityStep (speedBoostStep p deltaTime)
      deltaTime) deltaTime) deltaTime) deltaTime).1
  obtain ⟨b7, d7, i7, j7, -, -⟩ := clampStep_fields
    (landStep (bufferStep (coyoteStep (physicsStep (invincibilityStep
      (speedBoostStep p deltaTime) deltaTime) deltaTime) deltaTime) deltaTime).1)
  obtain ⟨b8, d8, i8, j8, -, -, -, -⟩ := updateCollisionBox_fields
    (clampStep (landStep (bufferStep (coyoteStep (physicsStep (invincibilityStep
      (speedBoostStep p deltaTime) deltaTime) deltaTime) deltaTime) deltaTime).1))
  obtain ⟨bi, di, -, -, -, -⟩ := invincibilityStep_fields (speedBoostStep p deltaTime) deltaTime
  constructor
  · rw [b8, b7, b6, b5, b4, b3, d8, d7, d6, d5, d4, d3, bi, di]
    exact speedBoostStep_pos p deltaTime
  · rw [i8, i7, i6, i5, i4, i3, j8, j7, j6, j5, j4, j3]
    exact invincibilityStep_pos (speedBoostStep p deltaTime) deltaTime

/-- C9: a non-crashed player never ends Player.update below the ground line,
and the vertical velocity is reset to zero whenever the ground clamp fires. -/
theorem update_never_below_ground (p : Player) (deltaTime : ℚ)
    (hc : p.state.isCrashed = false) :
    (update p deltaTime).y ≤ p.groundY - p.height ∧
    (p.groundY - p.height < (preClampState p deltaTime).y →
      (update p deltaTime).velocityY = 0) := by
  rw [update_eq_clamp p deltaTime hc]
  obtain ⟨hg, hh⟩ := preClampState_ground p deltaTime
  obtain ⟨s1, s2⟩ := clampStep_spec (preClampState p deltaTime)
  obtain ⟨-, -, -, -, -, -, uy, uv⟩ := updateCollisionBox_fields
    (clampStep (preClampState p deltaTime))
  constructor
  · rw [uy]
    rw [hg, hh] at s1
    exact s1
  · intro hfire
    rw [uv]
    exact s2 (by rw [hg, hh]; exact hfire)

/-- C4 (amended): Level.updateDeadline keeps the deadline position at or above
zero, and never moves it backwards as long as the player speed does not exceed
the level base speed by more than deadlineSpeed; the part_003 variant has an
unconditionally non-decreasing deadline for positive player speed and
non-negative difficulty.  (Past the grace period a player boosted beyond
deadlineSpeed pushes the level.js deadline backwards, see the counterexample.) -/
theorem updateDeadline_nonneg_mono (lv : Level) (deltaTime : ℚ) (player : Player)
    (hdt : 0 ≤ deltaTime) (hpos : 0 ≤ lv.deadlinePosition) :
    0 ≤ ((updateDeadline lv deltaTime player).1).deadlinePosition ∧
    (getSpeed player - lv.speed ≤ lv.deadlineSpeed →
      lv.deadlinePosition ≤ ((updateDeadline lv deltaTime player).1).deadlinePosition) ∧
    (0 < getSpeed player → 0 ≤ lv.difficulty →
      lv.deadlinePosition ≤ ((updateDeadlineAlt lv deltaTime player).1).deadlinePosition) := by
  have hdt1000 : 0 ≤ deltaTime / 1000 := by positivity
  refine ⟨?_, ?_, ?_⟩
  · simp only [updateDeadline]
    exact le_max_left 0 _
  · intro hb
    have key : ∀ sd : ℚ, 0 ≤ sd →
        lv.deadlinePosition ≤ max 0 (lv.deadlinePosition + sd * (deltaTime / 1000)) := by
      intro sd hsd
      refine le_trans ?_ (le_max_right _ _)
      nlinarith
    simp only [updateDeadline]
    split_ifs with h1 h2 h3
    · exact key _ (le_max_left _ _)
    · exact key _ (le_max_left _ _)
    · exact key _ (le_max_left _ _)
    · exact key _ (by linarith)
  · intro hps hdiff
    simp only [updateDeadlineAlt]
    have h50 : 0 ≤ (50:ℚ) / getSpeed player := le_of_lt (div_pos (by norm_num) hps)
    have hmul : 0 ≤ (50:ℚ) / getSpeed player * lv.difficulty * 0.7 * (deltaTime / 1000) := by
      have ha : 0 ≤ (50:ℚ) / getSpeed player * lv.difficulty := mul_nonneg h50 hdiff
      have hb : 0 ≤ (50:ℚ) / getSpeed player * lv.difficulty * 0.7 :=
        mul_nonneg ha (by norm_num)
      exact mul_nonneg hb hdt1000
    linarith

/-- Witness for C4 at the initial level and a fresh player. -/
theorem updateDeadline_nonneg_mono_witness :
    0 ≤ ((updateDeadline (mkLevel 800 600) 16 (mkPlayer 400)).1).deadlinePosition ∧
    (mkLevel 800 600).deadlinePosition ≤
      ((updateDeadline (mkLevel 800 600) 16 (mkPlayer 400)).1).deadlinePosition ∧
    (mkLevel 800 600).deadlinePosition ≤
      ((updateDeadlineAlt (mkLevel 800 600) 16 (mkPlayer 400)).1).deadlinePosition := by
  have h := updateDeadline_nonneg_mono (mkLevel 800 600) 16 (mkPlayer 400)
    (by norm_num) (by norm_num [mkLevel])
  exact ⟨h.1, h.2.1 (by norm_num [getSpeed, mkPlayer, mkLevel]),
    h.2.2 (by norm_num [getSpeed, mkPlayer]) (by norm_num [mkLevel])⟩

/-- C4 counterexample: past the grace period (distance 4500, game time 15 s), a
coffee-boosted player (speed 600) makes the level.js deadline position drop
from 50 to 22 in a single 100 ms tick. -/
theorem c4_deadline_moves_backwards :
    ((updateDeadline { mkLevel 800 600 with distance := 4500, deadlinePosition := 50 }
        100 (collectCoffee (mkPlayer 400))).1).deadlinePosition <
      ({ mkLevel 800 600 with
          distance := 4500, deadlinePosition := 50 } : Level).deadlinePosition := by
  norm_num [updateDeadline, collectCoffee, mkLevel, mkPlayer, getSpeed]

/-- C6 counterexample: a freshly coffee-boosted player (8000 ms of boost)
updated with a deltaTime of 8050 ms ends the update with a negative
speedBoostDuration; the counter is not clamped at zero. -/
theorem c6_duration_left_negative :
    (update (collectCoffee (mkPlayer 400)) 8050).speedBoostDuration < 0 := by
  norm_num [update, updateAux, collectCoffee, mkPlayer, speedBoostStep, invincibilityStep,
    physicsStep, coyoteStep, bufferStep, landStep, clampStep, updateCollisionBox]

/-- Witness for C6: after one 16 ms tick a fresh coffee boost is still active
and its remaining duration is strictly positive. -/
theorem update_flags_imply_positive_duration_witness :
    0 < (update (collectCoffee (mkPlayer 400)) 16).speedBoostDuration := by
  have h := update_flags_imply_positive_duration (collectCoffee (mkPlayer 400)) 16 rfl
  exact h.1 (by norm_num [update, updateAux, collectCoffee, mkPlayer, speedBoostStep,
    invincibilityStep, physicsStep, coyoteStep, bufferStep, landStep, clampStep,
    updateCollisionBox])

/-- A falling jumper one tick before the ground, used to exercise the clamp. -/
def c9Faller : Player :=
  { mkPlayer 400 with
      y := 349,
      velocityY := 600,
      state := { (mkPlayer 400).state with isJumping := true, isRunning := false } }

/-- Witness for C9: the falling jumper is clamped to the ground line with zero
vertical velocity. -/
theorem update_never_below_ground_witness :
    (update c9Faller 16).y ≤ c9Faller.groundY - c9Faller.height ∧
    (update c9Faller 16).velocityY = 0 := by
  have h := update_never_below_ground c9Faller 16 rfl
  exact ⟨h.1, h.2 (by norm_num [preClampState, c9Faller, mkPlayer, speedBoostStep,
    invincibilityStep, physicsStep, coyoteStep, bufferStep, landStep, land, executeJump])⟩

/-- Unfolding of the gameLoop while loop when a full step fits. -/
theorem drainLoop_of_le {a : ℚ} (h : timeStep ≤ a) :
    drainLoop a = ((drainLoop (a - timeStep)).1 + 1, (drainLoop (a - timeStep)).2) := by
  rw [drainLoop]
  rw [if_pos h]

/-- Unfolding of the gameLoop while loop when no full step fits. -/
theorem drainLoop_of_lt {a : ℚ} (h : a < timeStep) : drainLoop a = (0, a) := by
  rw [drainLoop]
  rw [if_neg (not_le.mpr h)]

/-- The while loop executes exactly n updates on n whole time steps. -/
theorem drainLoop_multiple (n : ℕ) : drainLoop ((n : ℚ) * timeStep) = (n, 0) := by
  have hts : (0:ℚ) < timeStep := by norm_num [timeStep]
  induction n with
  | zero =>
    rw [drainLoop_of_lt (by norm_num [timeStep])]
    norm_num
  | succ k ih =>
    have hcond : timeStep ≤ ((k + 1 : ℕ) : ℚ) * timeStep := by
      have hk : (0:ℚ) ≤ (k : ℚ) := by positivity
      push_cast
      nlinarith
    rw [drainLoop_of_le hcond]
    have harg : ((k + 1 : ℕ) : ℚ) * timeStep - timeStep = (k : ℚ) * timeStep := by
      push_cast
      ring
    rw [harg, ih]

/-- C7 counterexample: Game.gameLoop does not clamp the elapsed time, so no
fixed constant bounds the number of update calls of a single invocation: a
timestamp of (C+1) time steps after the previous frame forces C+1 update
calls. -/
theorem c7_update_count_unbounded :
    ¬ ∃ C : ℕ, ∀ timestamp : ℚ, (gameLoopSteps 0 0 timestamp).1 ≤ C := by
  rintro ⟨C, hC⟩
  have h := hC (((C + 1 : ℕ) : ℚ) * timeStep)
  rw [gameLoopSteps] at h
  rw [show (0:ℚ) + (((C + 1 : ℕ) : ℚ) * timeStep - 0) = ((C + 1 : ℕ) : ℚ) * timeStep by
    ring] at h
  rw [drainLoop_multiple] at h
  simp at h

/-- C7 (amended): the gameLoop while loop drains the whole accumulator rather
than clamping it: the leftover accumulatedTime equals the accumulated input
minus the executed steps times timeStep and lies in [0, timeStep); the step
count itself is unbounded in the elapsed time (see the counterexample). -/
theorem drainLoop_drains (acc : ℚ) (hacc : 0 ≤ acc) :
    (drainLoop acc).2 = acc - (drainLoop acc).1 * timeStep ∧
    0 ≤ (drainLoop acc).2 ∧ (drainLoop acc).2 < timeStep := by
  have hts : (0:ℚ) < timeStep := by norm_num [timeStep]
  have key : ∀ n : ℕ, ∀ a : ℚ, (⌈a / timeStep⌉).toNat = n → 0 ≤ a →
      (drainLoop a).2 = a - (drainLoop a).1 * timeStep ∧
      0 ≤ (drainLoop a).2 ∧ (drainLoop a).2 < timeStep := by
    intro n
    induction n using Nat.strong_induction_on with
    | _ n ih =>
      intro a hn ha
      by_cases hc : timeStep ≤ a
      · have h2 : (a - timeStep) / timeStep = a / timeStep - 1 := by field_simp
        have h1 : (1:ℚ) ≤ a / timeStep := (one_le_div hts).mpr hc
        have h3 : (1:ℤ) ≤ ⌈a / timeStep⌉ := by
          exact_mod_cast Int.le_ceil_iff.mpr (by push_cast; linarith)
        have hdec : (⌈(a - timeStep) / timeStep⌉).toNat < n := by
          rw [h2, Int.ceil_sub_one]
          omega
        obtain ⟨e1, e2, e3⟩ := ih _ hdec (a - timeStep) rfl (by linarith)
        rw [drainLoop_of_le hc]
        refine ⟨?_, e2, e3⟩
        push_cast
        rw [e1]
        ring
      · rw [drainLoop_of_lt (not_le.mp hc)]
        exact ⟨by norm_num, ha, not_le.mp hc⟩
  exact key _ acc rfl hacc

/-- Witness for C7 at an accumulated time of 100 ms (six full steps). -/
theorem drainLoop_drains_witness :
    (drainLoop 100).2 = 100 - (drainLoop 100).1 * timeStep ∧
    0 ≤ (drainLoop 100).2 ∧ (drainLoop 100).2 < timeStep :=
  drainLoop_drains 100 (by norm_num)

/-- One fixed 100 ms simulation tick of the player. -/
def tick100 (p : Player) : Player := update p 100

/-- First airborne phase: jump input on the ground, then five 100 ms ticks
(the player reaches the apex of the jump, 120 units above the ground). -/
def c2Phase1 : Player := tick100 (tick100 (tick100 (tick100 (tick100 (jump (mkPlayer 400))))))

/-- Second jump input while airborne, then five more ticks. -/
def c2Phase2 : Player := tick100 (tick100 (tick100 (tick100 (tick100 (jump c2Phase1)))))

/-- Third jump input while airborne, then five more ticks. -/
def c2Phase3 : Player := tick100 (tick100 (tick100 (tick100 (tick100 (jump c2Phase2)))))

/-- C2 (failing input): after one tick the coyote-time block has reset
coyoteTimeCounter to 0, so the second and the third airborne jump inputs both
re-enter the first-jump branch of Player.jump and get the full jumpForce
impulse (isDoubleJumping is never even set); after three jump inputs the
player is 360 units above the ground, exceeding the 246-unit kinematic
maximum of one full impulse plus one 0.8 double-jump impulse. -/
theorem c2_airborne_jumps_unbounded :
    (jump c2Phase1).velocityY = (mkPlayer 400).jumpForce ∧
    (jump c2Phase1).state.isDoubleJumping = false ∧
    (jump c2Phase2).velocityY = (mkPlayer 400).jumpForce ∧
    (jump c2Phase2).state.isDoubleJumping = false ∧
    c2Phase3.state.isJumping = true ∧
    (mkPlayer 400).y - c2Phase3.y = 360 ∧
    (mkPlayer 400).jumpForce ^ 2 / (2 * (mkPlayer 400).gravity) +
        ((mkPlayer 400).jumpForce * 0.8) ^ 2 / (2 * (mkPlayer 400).gravity) = 246 ∧
    (246:ℚ) < 360 := by
  norm_num [c2Phase3, c2Phase2, c2Phase1, tick100, update, updateAux, mkPlayer, jump,
    executeJump, land, speedBoostStep, invincibilityStep, physicsStep, coyoteStep,
    bufferStep, landStep, clampStep, updateCollisionBox]

/-- A player falling within the coyote window (jumping flag still unset),
5 units above the ground. -/
def c3Faller : Player := { mkPlayer 400 with y := 345, velocityY := 100 }

/-- The coyote faller after a jump input: the input is buffered (150 ms). -/
def c3Buffered : Player := jump c3Faller

/-- A falling player whose jumping flag is set, 5 units above the ground. -/
def c3JumpingFaller : Player :=
  { mkPlayer 400 with
      y := 345,
      velocityY := 100,
      state := { (mkPlayer 400).state with isJumping := true, isRunning := false } }

/-- The jumping faller after a jump input: the input is buffered (150 ms). -/
def c3BufferedJumping : Player := jump c3JumpingFaller

/-- C3 (failing input): the buffered jump of the coyote faller fires on the
landing tick (the updateAux flag is true) but the landing check immediately
afterwards cancels it (zero velocity, jumping flag cleared, player stays on
the ground line 350 on the following tick); for the faller whose jumping flag
is set, executeJump is not invoked on the landing tick at all, only on the
next one, where it is cancelled the same way.  A buffered jump input therefore
never produces an actual jump. -/
theorem c3_jump_buffer_swallowed :
    c3Buffered.jumpBufferCounter = 150 ∧
    (updateAux c3Buffered 50).2 = true ∧
    (update c3Buffered 50).state.isJumping = false ∧
    (update c3Buffered 50).velocityY = 0 ∧
    (update c3Buffered 50).y = 350 ∧
    (update (update c3Buffered 50) 50).y = 350 ∧
    (update (update c3Buffered 50) 50).velocityY = 0 ∧
    (updateAux c3BufferedJumping 50).2 = false ∧
    (updateAux (update c3BufferedJumping 50) 50).2 = true ∧
    (update (update c3BufferedJumping 50) 50).velocityY = 0 ∧
    (update (update c3BufferedJumping 50) 50).state.isJumping = false := by
  norm_num [c3Buffered, c3Faller, c3BufferedJumping, c3JumpingFaller, update, updateAux,
    mkPlayer, jump, executeJump, land, speedBoostStep, invincibilityStep, physicsStep,
    coyoteStep, bufferStep, landStep, clampStep, updateCollisionBox]

end MacTheDev
